import Mathlib

/-!
Shallow embedding of the simulation core of the Gemini-Hunter lane-runner game.

The global game state and its actions are translated from the zustand store
(`useStore` in the unnamed store module); the per-tick entity processing
(movement, bullet-vs-target resolution, player collision, cull, store swap)
is translated from `LevelManager.tsx`.  JavaScript numbers are modelled as
rationals (`ℚ`), entity lists as `List`, optional fields as `Option`.
-/

namespace GeminiHunter

/-- Game status enum, from `types.ts` (`GameStatus`). -/
inductive GameStatus
  | MENU
  | PLAYING
  | SHOP
  | GAME_OVER
  | VICTORY
deriving DecidableEq, Repr

/-- Object type enum, from `types.ts` (`ObjectType`). -/
inductive ObjectType
  | OBSTACLE
  | BARREL
  | GEM
  | LETTER
  | SHOP_PORTAL
  | ALIEN
  | MISSILE
  | BULLET
  | ENEMY_BULLET
deriving DecidableEq, Repr

/-- Enemy variant enum, from `types.ts` (`EnemyVariant`). -/
inductive EnemyVariant
  | GREEN_ALIEN
  | SAUCER
  | ARMORED
deriving DecidableEq, Repr

/-- Constant `RUN_SPEED_BASE = 6.0` from `types.ts`. -/
def RUN_SPEED_BASE : ℚ := 6
/-- Constant `SPAWN_DISTANCE = 120` from `types.ts`. -/
def SPAWN_DISTANCE : ℚ := 120
/-- Constant `REMOVE_DISTANCE = 20` from `types.ts`. -/
def REMOVE_DISTANCE : ℚ := 20
/-- Constant `MISSILE_SPEED = 30` from `LevelManager.tsx`. -/
def MISSILE_SPEED : ℚ := 30
/-- Constant `BULLET_SPEED = 60` from `LevelManager.tsx`. -/
def BULLET_SPEED : ℚ := 60
/-- Constant `ENEMY_BULLET_SPEED = 20` from `LevelManager.tsx`. -/
def ENEMY_BULLET_SPEED : ℚ := 20
/-- Constant `MAX_LEVEL = 50` from the store module. -/
def MAX_LEVEL : ℕ := 50
/-- Length of the target word `['G','E','M','I','N','I']` from the store module. -/
def GEMINI_TARGET_LENGTH : ℕ := 6

/-- The global game state held by the zustand store (`GameState` interface in
the store module).  `lives`/`maxLives` are integers, all other JS numbers are
rationals, `collectedLetters` is the list of collected target indices in
collection order. -/
structure GState where
  status : GameStatus
  score : ℚ
  lives : ℤ
  maxLives : ℤ
  speed : ℚ
  collectedLetters : List ℕ
  level : ℕ
  laneCount : ℕ
  gemsCollected : ℕ
  distance : ℚ
  gameTime : ℚ
  isSlowMotion : Bool
  damagePerShot : ℚ
  hasSpreadShot : Bool
  hasImmortality : Bool
  isImmortalityActive : Bool
deriving DecidableEq, Repr

/-- The store's initial state (the defaults given to `create` in the store
module). -/
def initialState : GState :=
  { status := .MENU
    score := 0
    lives := 3
    maxLives := 3
    speed := 0
    collectedLetters := []
    level := 1
    laneCount := 3
    gemsCollected := 0
    distance := 0
    gameTime := 0
    isSlowMotion := false
    damagePerShot := 1
    hasSpreadShot := false
    hasImmortality := false
    isImmortalityActive := false }

/-- Store action `takeDamage`: no-op under active immortality; otherwise
decrement `lives`, or end the run at the last life. -/
def takeDamage (s : GState) : GState :=
  if s.isImmortalityActive then s
  else if 1 < s.lives then { s with lives := s.lives - 1 }
  else { s with lives := 0, status := .GAME_OVER, speed := 0 }

/-- Store action `addScore`. -/
def addScore (amount : ℚ) (s : GState) : GState :=
  { s with score := s.score + amount }

/-- Store action `collectGem`: adds the gem's value to the score and
increments `gemsCollected`. -/
def collectGem (value : ℚ) (s : GState) : GState :=
  { s with score := s.score + value, gemsCollected := s.gemsCollected + 1 }

/-- Store action `openShop`. -/
def openShop (s : GState) : GState := { s with status := .SHOP }

/-- Store action `closeShop`. -/
def closeShop (s : GState) : GState := { s with status := .PLAYING }

/-- Store action `advanceLevel`: next level, two more lanes capped at 9,
5% speed increase, letters reset, back to `PLAYING`. -/
def advanceLevel (s : GState) : GState :=
  { s with
      level := s.level + 1
      laneCount := min (s.laneCount + 2) 9
      status := .PLAYING
      speed := s.speed * 1.05
      collectedLetters := [] }

/-- Store action `collectLetter`: ignores an already-collected index;
otherwise appends the index, applies the 1% speed bonus, and on completing
the six-letter target either advances the level (below `MAX_LEVEL`) or
enters `VICTORY` with the 50000 point bonus. -/
def collectLetter (s : GState) (index : ℕ) : GState :=
  if index ∈ s.collectedLetters then s
  else
    let newLetters := s.collectedLetters ++ [index]
    let s1 := { s with
                  collectedLetters := newLetters
                  speed := s.speed + s.speed * 0.01 }
    if newLetters.length = GEMINI_TARGET_LENGTH then
      if s1.level < MAX_LEVEL then advanceLevel s1
      else { s1 with status := .VICTORY, score := s1.score + 50000 }
    else s1

/-- Shop item type, from the `buyItem` signature in the store module. -/
inductive ItemType
  | HEAVY_AMMO
  | SPREAD_SHOT
  | MAX_LIFE
  | HEAL
deriving DecidableEq, Repr

/-- Store action `buyItem`: succeeds iff the score covers the cost, in which
case the cost is deducted and the item's effect applied. -/
def buyItem (t : ItemType) (cost : ℚ) (s : GState) : Bool × GState :=
  if cost ≤ s.score then
    let s1 := { s with score := s.score - cost }
    let s2 :=
      match t with
      | .HEAVY_AMMO => { s1 with damagePerShot := s1.damagePerShot + 1 }
      | .SPREAD_SHOT => { s1 with hasSpreadShot := true }
      | .MAX_LIFE => { s1 with maxLives := s1.maxLives + 1, lives := s1.lives + 1 }
      | .HEAL => { s1 with lives := min (s1.lives + 1) s1.maxLives }
    (true, s2)
  else (false, s)

/-- The effect that a successful purchase of each item has on the state,
as written in the `switch` of `buyItem`. -/
def upgradeApplied (t : ItemType) (s s' : GState) : Prop :=
  match t with
  | .HEAVY_AMMO => s'.damagePerShot = s.damagePerShot + 1
  | .SPREAD_SHOT => s'.hasSpreadShot = true
  | .MAX_LIFE => s'.maxLives = s.maxLives + 1 ∧ s'.lives = s.lives + 1
  | .HEAL => s'.lives = min (s.lives + 1) s.maxLives

/-- A 3D position or velocity `(x, y, z)`: lane axis, vertical axis, forward
axis. -/
abbrev Vec3 := ℚ × ℚ × ℚ

/-- A simulation entity (`GameObject` in `types.ts`).  The string `id` and
purely visual fields (`color`, `value`) are irrelevant to the simulation
logic and omitted; `vx` is the dynamically attached lateral bullet velocity
from the player-shoot handler in `LevelManager.tsx`. -/
structure Obj where
  type : ObjectType
  position : Vec3
  active : Bool
  health : Option ℚ := none
  maxHealth : Option ℚ := none
  scale : Option ℚ := none
  points : Option ℚ := none
  targetIndex : Option ℕ := none
  velocity : Option Vec3 := none
  variant : Option EnemyVariant := none
  speedBonus : Option ℚ := none
  vx : Option ℚ := none
  hasFired : Bool := false
deriving DecidableEq, Repr

instance : Inhabited Obj :=
  ⟨{ type := .OBSTACLE, position := (0, 0, 0), active := false }⟩

/-- Per-type movement rule of the tick loop in `LevelManager.tsx`
(the `--- Movement ---` block): bullets fly toward `-z` with their stored
lateral velocity, enemy bullets integrate their explicit velocity (or fall
back to a straight closing speed), missiles add their own thrust to the
ground scroll `dist`, and every other object scrolls by `dist` plus its
individual `speedBonus`. -/
def moveObj (isSlowMotion : Bool) (dist delta : ℚ) (o : Obj) : Obj :=
  let x := o.position.1
  let y := o.position.2.1
  let z := o.position.2.2
  match o.type with
  | .BULLET =>
      { o with position := (x + o.vx.getD 0 * delta, y, z - BULLET_SPEED * delta) }
  | .ENEMY_BULLET =>
      match o.velocity with
      | some v => { o with position := (x + v.1 * delta, y + v.2.1 * delta, z + v.2.2 * delta) }
      | none => { o with position := (x, y, z + ENEMY_BULLET_SPEED * delta) }
  | .MISSILE =>
      { o with position :=
          (x, y, z + dist + (if isSlowMotion then MISSILE_SPEED * 0.5 else MISSILE_SPEED) * delta) }
  | _ =>
      { o with position := (x, y, z + dist + o.speedBonus.getD 0 * delta) }

/-- Velocity of the enemy bullet fired by a Saucer (the Saucer shooter AI in
`LevelManager.tsx`): the direction from the Saucer to a point half a unit
above the player, scaled to `ENEMY_BULLET_SPEED` (halved under slow-motion).
`mag` stands for the computed `Math.sqrt(dx*dx + dy*dy + dz*dz)`. -/
def saucerBulletVelocity (isSlowMotion : Bool) (player opos : Vec3) (mag : ℚ) : Vec3 :=
  let dx := player.1 - opos.1
  let dy := (player.2.1 + 0.5) - opos.2.1
  let dz := player.2.2 - opos.2.2
  let speed := if isSlowMotion then ENEMY_BULLET_SPEED * 0.5 else ENEMY_BULLET_SPEED
  (dx / mag * speed, dy / mag * speed, dz / mag * speed)

/-- Squared distance between two points (`distanceToSquared` in the gem
magnet check). -/
def distSq (p q : Vec3) : ℚ :=
  (p.1 - q.1) ^ 2 + (p.2.1 - q.2.1) ^ 2 + (p.2.2 - q.2.2) ^ 2

/-- The bullet-vs-target hitbox test from the bullet collision logic in
`LevelManager.tsx`: axis-aligned on the lane and forward axes only, with
radius `1.0 * targetScale`. -/
def hitTest (b t : Obj) : Bool :=
  let hitRadius := 1 * t.scale.getD 1
  decide (|b.position.1 - t.position.1| < hitRadius ∧
          |b.position.2.2 - t.position.2.2| < hitRadius)

/-- The health a hit target is left with: `health - damagePerShot` when the
field is present, the `target.health = 0` fallback otherwise. -/
def newHealth (dps : ℚ) (t : Obj) : ℚ :=
  match t.health with
  | some h => h - dps
  | none => 0

/-- The state of a target after a bullet hit: health updated, and the target
deactivated when the new health is non-positive. -/
def damageTarget (dps : ℚ) (t : Obj) : Obj :=
  let h := newHealth dps t
  if h ≤ 0 then { t with health := some h, active := false }
  else { t with health := some h }

/-- One bullet's pass over the `targets` list (the
`for (const target of targets)` loop of the bullet collision logic):
inactive targets are skipped, the first active target passing the hitbox
test is damaged, the bullet deactivates and the loop breaks; a destroying
hit additionally awards `collectGem(50)`.  Returns the updated bullet, the
updated target list, and the updated game state. -/
def bulletLoop (dps : ℚ) (b : Obj) (gs : GState) : List Obj → Obj × List Obj × GState
  | [] => (b, [], gs)
  | t :: rest =>
      if t.active && hitTest b t then
        let t' := damageTarget dps t
        ({ b with active := false }, t' :: rest,
          if newHealth dps t ≤ 0 then collectGem 50 gs else gs)
      else
        let r := bulletLoop dps b gs rest
        (r.1, t :: r.2.1, r.2.2)

/-- Index of the first target the bullet would hit: first entry that is
active and passes the hitbox test. -/
def firstHitIdx (b : Obj) : List Obj → Option ℕ
  | [] => none
  | t :: rest =>
      if t.active && hitTest b t then some 0
      else (firstHitIdx b rest).map (· + 1)

/-- Vertical hitbox band `(objBottom, objTop)` of a damage source, from the
player collision logic in `LevelManager.tsx` (per type and, for ground
hazards, per variant). -/
def vertBand (o : Obj) : ℚ × ℚ :=
  let scale := o.scale.getD 1
  match o.type with
  | .BARREL =>
      match o.variant with
      | some .SAUCER => (0.5 * scale, 1.5 * scale)
      | some .ARMORED => (0, 1.5 * scale)
      | _ => (0, 1.2 * scale)
  | .MISSILE => (0.5, 1.5)
  | .ALIEN => (1, 2)
  | _ => (0, 1)

/-- The player collision logic of `LevelManager.tsx` for one active
non-bullet object: shop portal trigger, enemy-bullet body check, damage
source vertical-band check, and item (gem/letter) collection.  Returns the
updated object, the `keep` flag as left by this block, and the updated game
state.  The `player-hit` event it dispatches is consumed outside the level
manager (the player component calls `takeDamage`), so it does not touch the
game state here. -/
def playerCollide (p : Vec3) (gs : GState) (o : Obj) : Obj × Bool × GState :=
  let px := p.1
  let py := p.2.1
  let pz := p.2.2
  let x := o.position.1
  let y := o.position.2.1
  let z := o.position.2.2
  match o.type with
  | .SHOP_PORTAL =>
      if |z - pz| < 2 then ({ o with active := false }, false, openShop gs)
      else (o, true, gs)
  | .ENEMY_BULLET =>
      if z > pz - 2 ∧ z < pz + 2 then
        if |x - px| < 0.5 ∧ |y - (py + 0.6)| < 0.6 then ({ o with active := false }, true, gs)
        else (o, true, gs)
      else (o, true, gs)
  | .BARREL | .ALIEN | .MISSILE =>
      if z > pz - 2 ∧ z < pz + 2 then
        if |x - px| < 0.9 * o.scale.getD 1 then
          let band := vertBand o
          if py < band.2 ∧ py + 1.8 > band.1 then ({ o with active := false }, true, gs)
          else (o, true, gs)
        else (o, true, gs)
      else (o, true, gs)
  | .GEM =>
      if z > pz - 2 ∧ z < pz + 2 then
        if |x - px| < 0.9 * o.scale.getD 1 then
          if |y - py| < 2.5 then
            ({ o with active := false }, true, collectGem (o.points.getD 50) gs)
          else (o, true, gs)
        else (o, true, gs)
      else (o, true, gs)
  | .LETTER =>
      if z > pz - 2 ∧ z < pz + 2 then
        if |x - px| < 0.9 * o.scale.getD 1 then
          if |y - py| < 2.5 then
            ({ o with active := false }, true,
              if o.targetIndex.isSome then collectLetter gs (o.targetIndex.getD 0) else gs)
          else (o, true, gs)
        else (o, true, gs)
      else (o, true, gs)
  | _ =>
      if z > pz - 2 ∧ z < pz + 2 then
        if |x - px| < 0.9 * o.scale.getD 1 then
          if |y - py| < 2.5 then ({ o with active := false }, true, gs)
          else (o, true, gs)
        else (o, true, gs)
      else (o, true, gs)

/-- The distance cull at the end of the per-object loop: every non-bullet
object past `REMOVE_DISTANCE` behind the player loses its `keep` flag. -/
def cullKeep (o : Obj) (keep : Bool) : Bool :=
  match o.type with
  | .BULLET => keep
  | _ => if o.position.2.2 > REMOVE_DISTANCE then false else keep

/-- The per-object resolution step for a non-bullet object: the gem magnet
check, then the player collision logic (both only for active objects), then
the distance cull. -/
def resolveNonBullet (p : Vec3) (gs : GState) (o : Obj) : Obj × Bool × GState :=
  let step :=
    if o.active then
      match o.type with
      | .GEM =>
          if distSq p o.position < 25 then
            ({ o with active := false }, false, collectGem (o.points.getD 50) gs)
          else playerCollide p gs o
      | _ => playerCollide p gs o
    else (o, true, gs)
  (step.1, cullKeep step.1 step.2.1, step.2.2)

/-- A bullet's pass over the target snapshot inside the whole-store tick:
the same loop as `bulletLoop`, but the targets are shared references into
the store, modelled as indices so a hit mutates the store itself. -/
def bulletVsStore (dps : ℚ) (b : Obj) (gs : GState) (store : List Obj) :
    List ℕ → Obj × List Obj × GState
  | [] => (b, store, gs)
  | j :: rest =>
      let t := store.getD j default
      if t.active && hitTest b t then
        ({ b with active := false }, store.set j (damageTarget dps t),
          if newHealth dps t ≤ 0 then collectGem 50 gs else gs)
      else bulletVsStore dps b gs store rest

/-- Accumulator of the per-object loop of the tick: the store being mutated
in place, the indices pushed to `keptObjects` (in reverse), and the game
state. -/
structure TickAcc where
  store : List Obj
  keptRev : List ℕ
  gs : GState
deriving DecidableEq, Repr

/-- One iteration of the `for (const obj of currentObjects)` loop of
`LevelManager.tsx` restricted to collision resolution and cull (positions
are taken post-movement): an active bullet runs the target loop and the
short-range `z < -30` cull; every other object runs `resolveNonBullet`.
`tIdxs` is the `targets` snapshot (indices of objects that were active
damageable targets when the tick began). -/
def resolveStep (p : Vec3) (dps : ℚ) (tIdxs : List ℕ) (acc : TickAcc) (i : ℕ) : TickAcc :=
  let o := acc.store.getD i default
  match o.type, o.active with
  | .BULLET, true =>
      let r := bulletVsStore dps o acc.gs acc.store tIdxs
      let b' := r.1
      let keep := if b'.position.2.2 < -30 then false else b'.active
      { store := (r.2.1).set i b'
        keptRev := if keep then i :: acc.keptRev else acc.keptRev
        gs := r.2.2 }
  | _, _ =>
      let r := resolveNonBullet p acc.gs o
      { store := acc.store.set i r.1
        keptRev := if r.2.1 then i :: acc.keptRev else acc.keptRev
        gs := r.2.2 }

/-- The store-level collision/cull phase of one tick and the final store
swap: the `targets` snapshot is taken, every object index is processed in
order, and the next tick's store is the list of kept objects (in their final
mutated state, since the code keeps references).  Movement and the AI
reactive spawns are outside this phase; neither ever deactivates an
entity (spawns are created with `active: true`). -/
def resolveTick (p : Vec3) (gs : GState) (store : List Obj) : GState × List Obj :=
  let tIdxs := (List.range store.length).filter fun j =>
    decide ((store.getD j default).active = true ∧
      ((store.getD j default).type = .BARREL ∨ (store.getD j default).type = .ALIEN ∨
        (store.getD j default).type = .MISSILE))
  let acc := (List.range store.length).foldl (resolveStep p gs.damagePerShot tIdxs)
    ⟨store, [], gs⟩
  (acc.gs, acc.keptRev.reverse.map fun i => acc.store.getD i default)

/-- Computation of `furthestZ` in the spawning logic in `LevelManager.tsx`: the minimum
forward coordinate among non-projectile entities of the kept store, or the
half-horizon default `-60` when there are none. -/
def furthestZ (store : List Obj) : ℚ :=
  let zs := (store.filter fun o =>
    decide (o.type ≠ .MISSILE ∧ o.type ≠ .BULLET ∧ o.type ≠ .ENEMY_BULLET)).map
      fun o => o.position.2.2
  match zs with
  | [] => -60
  | z :: rest => rest.foldl min z

/-- The minimum spawn gap `6 + speed * 0.2` of the spawning logic. -/
def minGap (speed : ℚ) : ℚ := 6 + speed * 0.2

/-- The candidate spawn coordinate
`spawnZ = Math.max(furthestZ - minGap, -SPAWN_DISTANCE)`. -/
def candidateSpawnZ (speed : ℚ) (store : List Obj) : ℚ :=
  max (furthestZ store - minGap speed) (-SPAWN_DISTANCE)

/-- The Spawn Director's per-tick decision: `some spawnZ` when this tick
spawns at `spawnZ`, `none` when spawning is skipped (horizon saturated).
Mirrors the two guards `furthestZ > -SPAWN_DISTANCE` and
`spawnZ < furthestZ` of the spawning logic. -/
def spawnDecision (speed : ℚ) (store : List Obj) : Option ℚ :=
  let fz := furthestZ store
  if fz > -SPAWN_DISTANCE then
    let spawnZ := candidateSpawnZ speed store
    if spawnZ < fz then some spawnZ else none
  else none

/-- Per-call preservation of non-negative lives by `takeDamage`. -/
lemma takeDamage_lives_nonneg (s : GState) (h : 0 ≤ s.lives) :
    0 ≤ (takeDamage s).lives := by
  unfold takeDamage
  split_ifs with h1 h2
  · exact h
  · simp only
    omega
  · simp only
    omega

/-- C5: letter collection is idempotent — registering an index that is
already in the collected set leaves the whole level state unchanged. -/
theorem collectLetter_idempotent (s : GState) (index : ℕ)
    (h : index ∈ s.collectedLetters) : collectLetter s index = s := by
  simp [collectLetter, h]

theorem collectLetter_idempotent_witness :
    2 ∈ ({ initialState with collectedLetters := [2] } : GState).collectedLetters ∧
    collectLetter { initialState with collectedLetters := [2] } 2 =
      { initialState with collectedLetters := [2] } :=
  ⟨by decide, collectLetter_idempotent { initialState with collectedLetters := [2] } 2 (by decide)⟩

/-- C6: collecting the sixth distinct target letter triggers exactly one
transition — a level advance (level incremented, letters reset, status
`PLAYING`) below `MAX_LEVEL`, or `VICTORY` with the 50000 bonus at
`MAX_LEVEL` — while collecting any non-final letter changes neither level
nor status. -/
theorem collectLetter_completion (s : GState) (index : ℕ)
    (hmem : index ∉ s.collectedLetters) :
    (s.collectedLetters.length = 5 →
      (s.level < MAX_LEVEL →
        (collectLetter s index).level = s.level + 1 ∧
        (collectLetter s index).collectedLetters = [] ∧
        (collectLetter s index).status = .PLAYING) ∧
      (MAX_LEVEL ≤ s.level →
        (collectLetter s index).status = .VICTORY ∧
        (collectLetter s index).level = s.level ∧
        (collectLetter s index).score = s.score + 50000)) ∧
    (s.collectedLetters.length ≠ 5 →
      (collectLetter s index).level = s.level ∧
      (collectLetter s index).status = s.status ∧
      (collectLetter s index).collectedLetters = s.collectedLetters ++ [index]) := by
  constructor
  · intro h5
    have hlen : (s.collectedLetters ++ [index]).length = GEMINI_TARGET_LENGTH := by
      simp [h5, GEMINI_TARGET_LENGTH]
    constructor
    · intro hlv
      simp [collectLetter, hmem, hlen, hlv, advanceLevel]
    · intro hge
      have hnlv : ¬ s.level < MAX_LEVEL := by omega
      simp [collectLetter, hmem, hlen, hnlv]
  · intro h5
    have hlen : ¬ s.collectedLetters.length + 1 = GEMINI_TARGET_LENGTH := by
      simp only [GEMINI_TARGET_LENGTH]
      omega
    simp [collectLetter, hmem, hlen]

theorem collectLetter_completion_witness :
    5 ∉ ({ initialState with collectedLetters := [0, 1, 2, 3, 4] } : GState).collectedLetters ∧
    ({ initialState with collectedLetters := [0, 1, 2, 3, 4] } : GState).collectedLetters.length = 5 ∧
    ({ initialState with collectedLetters := [0, 1, 2, 3, 4] } : GState).level < MAX_LEVEL ∧
    (collectLetter { initialState with collectedLetters := [0, 1, 2, 3, 4] } 5).level =
      ({ initialState with collectedLetters := [0, 1, 2, 3, 4] } : GState).level + 1 ∧
    (collectLetter { initialState with collectedLetters := [0, 1, 2, 3, 4] } 5).collectedLetters = [] ∧
    (collectLetter { initialState with collectedLetters := [0, 1, 2, 3, 4] } 5).status = .PLAYING :=
  ⟨by decide, by decide, by decide,
    ((collectLetter_completion { initialState with collectedLetters := [0, 1, 2, 3, 4] } 5
      (by decide)).1 (by decide) |>.1 (by decide)).1,
    ((collectLetter_completion { initialState with collectedLetters := [0, 1, 2, 3, 4] } 5
      (by decide)).1 (by decide) |>.1 (by decide)).2.1,
    ((collectLetter_completion { initialState with collectedLetters := [0, 1, 2, 3, 4] } 5
      (by decide)).1 (by decide) |>.1 (by decide)).2.2⟩

/-- C8: `buyItem` either fails with the whole state untouched (score below
cost) or succeeds, deducting exactly the cost and applying the purchased
upgrade. -/
theorem buyItem_contract (t : ItemType) (cost : ℚ) (s : GState) :
    (s.score < cost → buyItem t cost s = (false, s)) ∧
    (cost ≤ s.score →
      (buyItem t cost s).1 = true ∧
      (buyItem t cost s).2.score = s.score - cost ∧
      upgradeApplied t s (buyItem t cost s).2) := by
  constructor
  · intro h
    have hn : ¬ cost ≤ s.score := not_le.mpr h
    simp [buyItem, hn]
  · intro h
    cases t <;> simp [buyItem, h, upgradeApplied]

theorem buyItem_contract_witness :
    (30 : ℚ) ≤ ({ initialState with score := 100 } : GState).score ∧
    (buyItem .HEAVY_AMMO 30 { initialState with score := 100 }).1 = true ∧
    (buyItem .HEAVY_AMMO 30 { initialState with score := 100 }).2.score =
      ({ initialState with score := 100 } : GState).score - 30 ∧
    upgradeApplied .HEAVY_AMMO { initialState with score := 100 }
      (buyItem .HEAVY_AMMO 30 { initialState with score := 100 }).2 :=
  ⟨by norm_num [initialState],
    (buyItem_contract .HEAVY_AMMO 30 { initialState with score := 100 }).2
      (by norm_num [initialState])⟩

/-- C10: `takeDamage` is a no-op under active immortality; otherwise with
more than one life it decrements lives and keeps the status, with exactly
one life it zeroes lives, sets `GAME_OVER` and stops the run; lives stay
non-negative under any number of calls. -/
theorem takeDamage_contract (s : GState) :
    (s.isImmortalityActive = true → takeDamage s = s) ∧
    (s.isImmortalityActive = false → 1 < s.lives →
      (takeDamage s).lives = s.lives - 1 ∧ (takeDamage s).status = s.status) ∧
    (s.isImmortalityActive = false → s.lives = 1 →
      (takeDamage s).lives = 0 ∧ (takeDamage s).status = .GAME_OVER ∧
      (takeDamage s).speed = 0) ∧
    (∀ n : ℕ, 0 ≤ s.lives → 0 ≤ (takeDamage^[n] s).lives) := by
  refine ⟨?_, ?_, ?_, ?_⟩
  · intro h
    simp [takeDamage, h]
  · intro h h1
    simp [takeDamage, h, h1]
  · intro h h1
    have hn : ¬ 1 < s.lives := by omega
    simp [takeDamage, h, hn]
  · intro n
    induction n generalizing s with
    | zero => intro h; simpa using h
    | succ k ih =>
        intro h
        rw [Function.iterate_succ_apply]
        exact ih (takeDamage s) (takeDamage_lives_nonneg s h)

theorem takeDamage_contract_witness :
    initialState.isImmortalityActive = false ∧ 1 < initialState.lives ∧
    (takeDamage initialState).lives = initialState.lives - 1 ∧
    (takeDamage initialState).status = initialState.status :=
  ⟨rfl, by decide,
    ((takeDamage_contract initialState).2.1 rfl (by decide)).1,
    ((takeDamage_contract initialState).2.1 rfl (by decide)).2⟩

/-- C4: the Spawn Director never places a spawn on the player's side of
`furthestZ` — whenever it decides to spawn, `spawnZ` lies strictly past
`furthestZ` and within the `-SPAWN_DISTANCE` horizon — and it skips
spawning precisely on the ticks where the clamped candidate `spawnZ` would
not advance past `furthestZ`. -/
theorem spawnZ_monotone (speed : ℚ) (hs : 0 ≤ speed) (store : List Obj) :
    (∀ z, spawnDecision speed store = some z →
      z < furthestZ store ∧ -SPAWN_DISTANCE ≤ z) ∧
    (spawnDecision speed store = none ↔
      furthestZ store ≤ candidateSpawnZ speed store) := by
  have hgap : 0 < minGap speed := by
    unfold minGap
    nlinarith
  by_cases h : furthestZ store > -SPAWN_DISTANCE
  · have hlt : candidateSpawnZ speed store < furthestZ store := by
      unfold candidateSpawnZ
      apply max_lt
      · linarith
      · linarith
    constructor
    · intro z hz
      unfold spawnDecision at hz
      rw [if_pos h, if_pos hlt] at hz
      cases hz
      exact ⟨hlt, le_max_right _ _⟩
    · unfold spawnDecision
      rw [if_pos h, if_pos hlt]
      constructor
      · intro hc
        exact absurd hc (by simp)
      · intro hle
        exact absurd hle (not_le.mpr hlt)
  · have hfz : furthestZ store ≤ -SPAWN_DISTANCE := not_lt.mp h
    constructor
    · intro z hz
      unfold spawnDecision at hz
      rw [if_neg h] at hz
      exact absurd hz (by simp)
    · unfold spawnDecision
      rw [if_neg h]
      constructor
      · intro _
        exact le_trans hfz (le_max_right _ _)
      · intro _
        rfl

/-- A one-gem store used as a concrete spawn-director input. -/
def gemStore : List Obj := [{ type := .GEM, position := (0, 1.2, -60), active := true }]

/-- Evaluation of `furthestZ` on `gemStore`. -/
lemma furthestZ_gemStore : furthestZ gemStore = -60 := by
  simp [furthestZ, gemStore]

/-- Evaluation of the spawn decision on `gemStore`:
`furthestZ = -60`, gap `6 + 6 * 0.2 = 7.2`, `spawnZ = -67.2 = -336/5`. -/
lemma spawnDecision_gemStore :
    spawnDecision RUN_SPEED_BASE gemStore = some (-336 / 5) := by
  simp only [spawnDecision, candidateSpawnZ, furthestZ_gemStore, minGap,
    SPAWN_DISTANCE, RUN_SPEED_BASE]
  norm_num

theorem spawnZ_monotone_witness :
    (0 : ℚ) ≤ RUN_SPEED_BASE ∧
    spawnDecision RUN_SPEED_BASE gemStore = some (-336 / 5) ∧
    (-336 / 5 : ℚ) < furthestZ gemStore ∧
    -SPAWN_DISTANCE ≤ (-336 / 5 : ℚ) :=
  ⟨by norm_num [RUN_SPEED_BASE], spawnDecision_gemStore,
    (spawnZ_monotone RUN_SPEED_BASE (by norm_num [RUN_SPEED_BASE]) gemStore).1
      (-336 / 5) spawnDecision_gemStore⟩

/-- C7: with slow-motion active and `ENEMY_BULLET_SPEED = 20`, a Saucer's
newly fired enemy bullet velocity has magnitude 10 (squared magnitude 100,
`mag` being the computed distance to the aim point), and the movement rule
for existing enemy bullets neither reads the slow-motion flag nor changes
their stored velocity. -/
theorem slowMotion_enemyBullet (player opos : Vec3) (mag : ℚ) (h0 : mag ≠ 0)
    (hmag : mag ^ 2 = (player.1 - opos.1) ^ 2 + ((player.2.1 + 0.5) - opos.2.1) ^ 2 +
      (player.2.2 - opos.2.2) ^ 2) :
    ((saucerBulletVelocity true player opos mag).1 ^ 2 +
      (saucerBulletVelocity true player opos mag).2.1 ^ 2 +
      (saucerBulletVelocity true player opos mag).2.2 ^ 2 = 10 ^ 2) ∧
    (∀ (isSlow : Bool) (dist delta : ℚ) (o : Obj), o.type = .ENEMY_BULLET →
      (moveObj isSlow dist delta o).velocity = o.velocity ∧
      moveObj true dist delta o = moveObj false dist delta o) := by
  constructor
  · obtain ⟨px, py, pz⟩ := player
    obtain ⟨ox, oy, oz⟩ := opos
    simp only [saucerBulletVelocity, if_true, ENEMY_BULLET_SPEED] at hmag ⊢
    field_simp
    linear_combination (-100 : ℚ) * hmag
  · intro isSlow dist delta o hEB
    constructor
    · cases hv : o.velocity <;> simp [moveObj, hEB, hv]
    · cases hv : o.velocity <;> simp [moveObj, hEB, hv]

/-- A concrete in-flight enemy bullet with an explicit velocity. -/
def sampleEnemyBullet : Obj :=
  { type := .ENEMY_BULLET, position := (0, 1, -5), active := true,
    velocity := some (1, 2, 3) }

theorem slowMotion_enemyBullet_witness :
    ((5 : ℚ) ≠ 0) ∧
    ((5 : ℚ) ^ 2 = (((3 : ℚ), (-0.5 : ℚ), (4 : ℚ)).1 - ((0 : ℚ), (0 : ℚ), (0 : ℚ)).1) ^ 2 +
      ((((3 : ℚ), (-0.5 : ℚ), (4 : ℚ)).2.1 + 0.5) - ((0 : ℚ), (0 : ℚ), (0 : ℚ)).2.1) ^ 2 +
      (((3 : ℚ), (-0.5 : ℚ), (4 : ℚ)).2.2 - ((0 : ℚ), (0 : ℚ), (0 : ℚ)).2.2) ^ 2) ∧
    ((saucerBulletVelocity true (3, -0.5, 4) (0, 0, 0) 5).1 ^ 2 +
      (saucerBulletVelocity true (3, -0.5, 4) (0, 0, 0) 5).2.1 ^ 2 +
      (saucerBulletVelocity true (3, -0.5, 4) (0, 0, 0) 5).2.2 ^ 2 = 10 ^ 2) ∧
    ((moveObj true 0 1 sampleEnemyBullet).velocity = sampleEnemyBullet.velocity) :=
  ⟨by norm_num, by norm_num,
    (slowMotion_enemyBullet (3, -0.5, 4) (0, 0, 0) 5 (by norm_num) (by norm_num)).1,
    ((slowMotion_enemyBullet (3, -0.5, 4) (0, 0, 0) 5 (by norm_num) (by norm_num)).2
      true 0 1 sampleEnemyBullet rfl).1⟩

/-- Characterization of one bullet's pass over the target list: with no
active hit the loop is the identity; otherwise exactly the first hit target
is damaged, the bullet deactivates, and `collectGem 50` fires exactly on a
destroying hit. -/
lemma bulletLoop_char (dps : ℚ) (b : Obj) (gs : GState) (ts : List Obj) :
    (firstHitIdx b ts = none → bulletLoop dps b gs ts = (b, ts, gs)) ∧
    (∀ i, firstHitIdx b ts = some i →
      bulletLoop dps b gs ts =
        ({ b with active := false },
          ts.set i (damageTarget dps (ts.getD i default)),
          if newHealth dps (ts.getD i default) ≤ 0 then collectGem 50 gs else gs) ∧
      (ts.getD i default).active = true ∧ hitTest b (ts.getD i default) = true ∧
      ∀ j, j < i →
        ¬ ((ts.getD j default).active = true ∧ hitTest b (ts.getD j default) = true)) := by
  induction ts with
  | nil =>
      constructor
      · intro _; rfl
      · intro i h; simp [firstHitIdx] at h
  | cons t rest ih =>
      by_cases hc : (t.active && hitTest b t) = true
      · constructor
        · intro hn
          simp only [firstHitIdx] at hn
          rw [if_pos hc] at hn
          cases hn
        · intro i hi
          simp only [firstHitIdx] at hi
          rw [if_pos hc] at hi
          obtain rfl : 0 = i := Option.some.inj hi
          have hand := hc
          rw [Bool.and_eq_true] at hand
          refine ⟨?_, by simpa using hand.1, by simpa using hand.2, ?_⟩
          · simp only [bulletLoop]
            rw [if_pos hc]
            simp
          · intro j hj
            exact absurd hj (Nat.not_lt_zero j)
      · constructor
        · intro hn
          simp only [firstHitIdx] at hn
          rw [if_neg hc, Option.map_eq_none'] at hn
          simp only [bulletLoop]
          rw [if_neg hc, ih.1 hn]
        · intro i hi
          simp only [firstHitIdx] at hi
          rw [if_neg hc, Option.map_eq_some'] at hi
          obtain ⟨i', hi', rfl⟩ := hi
          obtain ⟨heq, ha, ht, hfirst⟩ := ih.2 i' hi'
          refine ⟨?_, by simpa using ha, by simpa using ht, ?_⟩
          · simp only [bulletLoop]
            rw [if_neg hc, heq]
            simp
          · intro j hj
            cases j with
            | zero =>
                intro hcon
                apply hc
                rw [Bool.and_eq_true]
                exact ⟨hcon.1, hcon.2⟩
            | succ k =>
                intro hcon
                exact hfirst k (by omega) (by simpa using hcon)

/-- C3: a bullet overlapping several targets damages at most one per tick —
with no active overlapping target the loop changes nothing, and otherwise
only the first such target (in store order) is replaced by its damaged
version, every earlier target being a non-hit, while the bullet itself
deactivates on that first hit. -/
theorem bullet_hits_at_most_one (dps : ℚ) (b : Obj) (gs : GState) (ts : List Obj) :
    (firstHitIdx b ts = none → bulletLoop dps b gs ts = (b, ts, gs)) ∧
    (∀ i, firstHitIdx b ts = some i →
      (bulletLoop dps b gs ts).1 = { b with active := false } ∧
      (bulletLoop dps b gs ts).2.1 = ts.set i (damageTarget dps (ts.getD i default)) ∧
      ∀ j, j < i →
        ¬ ((ts.getD j default).active = true ∧ hitTest b (ts.getD j default) = true)) := by
  constructor
  · exact (bulletLoop_char dps b gs ts).1
  · intro i hi
    obtain ⟨heq, _, _, hfirst⟩ := (bulletLoop_char dps b gs ts).2 i hi
    rw [heq]
    exact ⟨rfl, rfl, hfirst⟩

/-- A concrete player bullet overlapping the sample targets. -/
def bulletW : Obj := { type := .BULLET, position := (0, 0.5, -5), active := true }

/-- Sample target list: an inactive barrel, then an active barrel with
3 health, then an active flyer — all overlapping `bulletW`. -/
def targetsW : List Obj :=
  [{ type := .BARREL, position := (0, 0.6, -5), active := false, health := some 2 },
   { type := .BARREL, position := (0, 0.6, -5), active := true, health := some 3 },
   { type := .ALIEN, position := (0, 1.5, -5), active := true, health := some 2 }]

/-- The first active hit in `targetsW` is the middle target. -/
lemma firstHitIdx_targetsW : firstHitIdx bulletW targetsW = some 1 := by
  simp [firstHitIdx, hitTest, bulletW, targetsW]

theorem bullet_hits_at_most_one_witness :
    firstHitIdx bulletW targetsW = some 1 ∧
    (bulletLoop 1 bulletW initialState targetsW).1 = { bulletW with active := false } ∧
    (bulletLoop 1 bulletW initialState targetsW).2.1 =
      targetsW.set 1 (damageTarget 1 (targetsW.getD 1 default)) :=
  ⟨firstHitIdx_targetsW,
    ((bullet_hits_at_most_one 1 bulletW initialState targetsW).2 1 firstHitIdx_targetsW).1,
    ((bullet_hits_at_most_one 1 bulletW initialState targetsW).2 1 firstHitIdx_targetsW).2.1⟩

/-- A damaged target is never left active with non-positive health: either
the new health is positive, or the target was deactivated by the hit. -/
lemma damageTarget_ok (dps : ℚ) (t : Obj) :
    (damageTarget dps t).active = true → ∀ h, (damageTarget dps t).health = some h → 0 < h := by
  simp only [damageTarget]
  split_ifs with hh
  · intro hact
    simp at hact
  · intro _ h hsome
    simp only [Option.some.injEq] at hsome
    push_neg at hh
    linarith [hsome ▸ hh]

/-- C2: the bullet resolution step preserves the invariant that an active
damageable target has positive health — after the loop there is no target
that is still active with its `health` at or below zero, because the hit
that brings health to zero or below deactivates the target in the same
step. -/
theorem health_nonpositive_inactive (dps : ℚ) (b : Obj) (gs : GState) (ts : List Obj)
    (hts : ∀ t ∈ ts, t.active = true → ∀ h, t.health = some h → 0 < h) :
    ∀ t' ∈ (bulletLoop dps b gs ts).2.1,
      t'.active = true → ∀ h, t'.health = some h → 0 < h := by
  rcases hfi : firstHitIdx b ts with _ | i
  · rw [(bulletLoop_char dps b gs ts).1 hfi]
    exact hts
  · obtain ⟨heq, _, _, _⟩ := (bulletLoop_char dps b gs ts).2 i hfi
    rw [heq]
    intro t' ht'
    rcases List.mem_or_eq_of_mem_set ht' with hmem | rfl
    · exact hts t' hmem
    · exact damageTarget_ok dps (ts.getD i default)

theorem health_nonpositive_inactive_witness :
    (∀ t ∈ targetsW, t.active = true → ∀ h, t.health = some h → 0 < h) ∧
    (∀ t' ∈ (bulletLoop 1 bulletW initialState targetsW).2.1,
      t'.active = true → ∀ h, t'.health = some h → 0 < h) := by
  have hts : ∀ t ∈ targetsW, t.active = true → ∀ h, t.health = some h → 0 < h := by
    intro t htm
    simp only [targetsW, List.mem_cons, List.mem_singleton] at htm
    rcases htm with rfl | rfl | rfl | hcon
    · intro hact
      simp at hact
    · intro _ h hsome
      simp at hsome
      subst hsome
      norm_num
    · intro _ h hsome
      simp at hsome
      subst hsome
      norm_num
    · simp at hcon
  exact ⟨hts, health_nonpositive_inactive 1 bulletW initialState targetsW hts⟩

/-- C9: a destroying bullet hit (first hit target left at non-positive
health) deactivates the target and awards its bonus through the
gem-collection action — the game state after the loop is exactly
`collectGem 50` of the state before, so the score grows by 50 and
`gemsCollected` by one. -/
theorem destruction_awards_gem (dps : ℚ) (b : Obj) (gs : GState) (ts : List Obj) (i : ℕ)
    (hfi : firstHitIdx b ts = some i)
    (hdead : newHealth dps (ts.getD i default) ≤ 0) :
    (bulletLoop dps b gs ts).2.1 = ts.set i (damageTarget dps (ts.getD i default)) ∧
    (damageTarget dps (ts.getD i default)).active = false ∧
    (bulletLoop dps b gs ts).2.2 = collectGem 50 gs ∧
    (bulletLoop dps b gs ts).2.2.score = gs.score + 50 ∧
    (bulletLoop dps b gs ts).2.2.gemsCollected = gs.gemsCollected + 1 := by
  obtain ⟨heq, _, _, _⟩ := (bulletLoop_char dps b gs ts).2 i hfi
  rw [heq]
  refine ⟨rfl, ?_, ?_, ?_, ?_⟩
  · simp only [damageTarget]
    rw [if_pos hdead]
  · show (if newHealth dps (ts.getD i default) ≤ 0 then collectGem 50 gs else gs) =
      collectGem 50 gs
    rw [if_pos hdead]
  · show (if newHealth dps (ts.getD i default) ≤ 0 then collectGem 50 gs else gs).score =
      gs.score + 50
    rw [if_pos hdead]
    rfl
  · show (if newHealth dps (ts.getD i default) ≤ 0 then collectGem 50 gs
        else gs).gemsCollected = gs.gemsCollected + 1
    rw [if_pos hdead]
    rfl

/-- A one-element target list whose barrel dies to a single 1-damage hit. -/
def fragileTargets : List Obj :=
  [{ type := .BARREL, position := (0, 0.6, -5), active := true, health := some 1 }]

/-- The bullet's first hit in `fragileTargets` is index 0. -/
lemma firstHitIdx_fragileTargets : firstHitIdx bulletW fragileTargets = some 0 := by
  simp [firstHitIdx, hitTest, bulletW, fragileTargets]

/-- One damage leaves the fragile barrel at health 0. -/
lemma fragile_dead : newHealth 1 (fragileTargets.getD 0 default) ≤ 0 := by
  norm_num [newHealth, fragileTargets]

theorem destruction_awards_gem_witness :
    firstHitIdx bulletW fragileTargets = some 0 ∧
    newHealth 1 (fragileTargets.getD 0 default) ≤ 0 ∧
    (bulletLoop 1 bulletW initialState fragileTargets).2.2.score = initialState.score + 50 ∧
    (bulletLoop 1 bulletW initialState fragileTargets).2.2.gemsCollected =
      initialState.gemsCollected + 1 :=
  ⟨firstHitIdx_fragileTargets, fragile_dead,
    (destruction_awards_gem 1 bulletW initialState fragileTargets 0
      firstHitIdx_fragileTargets fragile_dead).2.2.2.1,
    (destruction_awards_gem 1 bulletW initialState fragileTargets 0
      firstHitIdx_fragileTargets fragile_dead).2.2.2.2⟩

/-- An enemy bullet sitting exactly on the player's body center. -/
def hitEnemyBullet : Obj :=
  { type := .ENEMY_BULLET, position := (0, 0.6, 0), active := true }

/-- C1 counterexample: an enemy bullet that hits the player is deactivated
by the player-collision branch, but its `keep` flag is left `true`, so the
store used by the next tick still contains it with `active = false` — an
entity deactivated during the tick that is not removed at the end of that
same tick. -/
theorem deactivated_entity_survives_tick :
    (resolveTick (0, 0, 0) initialState [hitEnemyBullet]).2 =
      [{ hitEnemyBullet with active := false }] := by
  norm_num [resolveTick, resolveStep, resolveNonBullet, playerCollide, cullKeep,
    hitEnemyBullet, REMOVE_DISTANCE, List.range_succ]

/-- C1 (amended): among active unscaled entities not yet behind the removal
line, a deactivated entity is removed from the store in the same tick
exactly when it was a gem (magnet pickup) or a shop portal; an entity
deactivated by any player-collision branch (enemy bullet, hazard, or letter
pickup) keeps its `keep` flag and survives into the next tick's store. -/
theorem deactivation_removal_amended (p : Vec3) (gs : GState) (o : Obj)
    (hact : o.active = true) (hsc : o.scale = none) (hz : o.position.2.2 ≤ REMOVE_DISTANCE)
    (hdead : (resolveNonBullet p gs o).1.active = false) :
    ((resolveNonBullet p gs o).2.1 = false ↔ (o.type = .GEM ∨ o.type = .SHOP_PORTAL)) := by
  have hnz : ¬ o.position.2.2 > REMOVE_DISTANCE := not_lt.mpr hz
  cases htype : o.type
  all_goals
    simp only [resolveNonBullet, playerCollide, cullKeep, vertBand, htype, hact, hsc,
      Option.getD_none, if_true] at hdead ⊢
  case OBSTACLE =>
    split_ifs at hdead ⊢ with h1 h2 h3
    · simp [hnz]
    all_goals simp [hact] at hdead
  case SHOP_PORTAL =>
    split_ifs at hdead ⊢ with h1
    · simp [hnz]
    all_goals simp [hact] at hdead
  case BULLET =>
    split_ifs at hdead ⊢ with h1 h2 h3
    · simp
    all_goals simp [hact] at hdead
  case LETTER =>
    split_ifs at hdead ⊢ with h1 h2 h3 h4
    · simp [hnz]
    · simp [hnz]
    all_goals simp [hact] at hdead
  case ENEMY_BULLET =>
    split_ifs at hdead ⊢ with h1 h2
    · simp [hnz]
    all_goals simp [hact] at hdead
  case BARREL =>
    split_ifs at hdead ⊢ with h1 h2 h3
    · simp [hnz]
    all_goals simp [hact] at hdead
  case ALIEN =>
    split_ifs at hdead ⊢ with h1 h2 h3
    · simp [hnz]
    all_goals simp [hact] at hdead
  case MISSILE =>
    split_ifs at hdead ⊢ with h1 h2 h3
    · simp [hnz]
    all_goals simp [hact] at hdead
  case GEM =>
    split_ifs at hdead ⊢ with h1 h2 h3 h4
    · simp [hnz]
    · exfalso
      push_neg at h1
      obtain ⟨hz1, hz2⟩ := h2
      have hx := abs_lt.mp h3
      have hy := abs_lt.mp h4
      simp only [distSq] at h1
      nlinarith [hx.1, hx.2, hy.1, hy.2, hz1, hz2]
    all_goals simp [hact] at hdead

/-- A shop portal standing exactly at the player's position. -/
def shopPortalW : Obj := { type := .SHOP_PORTAL, position := (0, 0, 0), active := true }

/-- The portal at the player is consumed: deactivated with `keep = false`. -/
lemma resolveNonBullet_shopPortalW :
    resolveNonBullet (0, 0, 0) initialState shopPortalW =
      ({ shopPortalW with active := false }, false, openShop initialState) := by
  norm_num [resolveNonBullet, playerCollide, cullKeep, shopPortalW, REMOVE_DISTANCE]

theorem deactivation_removal_amended_witness :
    shopPortalW.active = true ∧ shopPortalW.scale = none ∧
    shopPortalW.position.2.2 ≤ REMOVE_DISTANCE ∧
    (resolveNonBullet (0, 0, 0) initialState shopPortalW).1.active = false ∧
    ((resolveNonBullet (0, 0, 0) initialState shopPortalW).2.1 = false ↔
      (shopPortalW.type = .GEM ∨ shopPortalW.type = .SHOP_PORTAL)) :=
  ⟨rfl, rfl, by norm_num [shopPortalW, REMOVE_DISTANCE],
    by rw [resolveNonBullet_shopPortalW],
    deactivation_removal_amended (0, 0, 0) initialState shopPortalW rfl rfl
      (by norm_num [shopPortalW, REMOVE_DISTANCE])
      (by rw [resolveNonBullet_shopPortalW])⟩

end GeminiHunter
